import Mathlib

/-!
Verification of the `ros-patent-api` gateway (`src/main.py`).

The service forwards patent-search queries to an upstream provider and
normalizes the heterogeneous upstream JSON records into a fixed
`PatentItem` schema.  We give a shallow embedding of the relevant Python
code over a `JValue` model of parsed JSON:

* Python `dict` / `list` / `str` / `int` / `bool` / `None` become the
  constructors of `JValue` (numbers are modelled as integers; the code
  under scrutiny never manipulates fractional numbers).
* Pure total Python code becomes Lean functions.
* Python code that can raise (attribute access on a wrong type, `" ".join`
  over non-strings, pydantic validation) becomes `Except String`-valued
  functions; an `Except.error` models a raised exception.
-/

set_option autoImplicit false

namespace RosPatent

/-- Model of a parsed JSON value (the shape `requests.Response.json()`
returns).  Numbers are modelled as integers. -/
inductive JValue where
  | null : JValue
  | bool : Bool → JValue
  | num : Int → JValue
  | str : String → JValue
  | arr : List JValue → JValue
  | obj : List (String × JValue) → JValue

/-- Lookup of a key in an object's key/value list (Python `dict`
subscript/`get` semantics: first binding wins; our objects come from JSON
parsing, which keeps one binding per key). -/
def objGet : List (String × JValue) → String → Option JValue
  | [], _ => none
  | (k, v) :: kvs, key => if k = key then some v else objGet kvs key

/-- Python truthiness (`bool(v)`) for modelled JSON values. -/
def pyTruthy : JValue → Bool
  | .null => false
  | .bool b => b
  | .num n => n != 0
  | .str s => s != ""
  | .arr xs => !xs.isEmpty
  | .obj kvs => !kvs.isEmpty

/-- Embed an optional lookup result the way Python's `dict.get` reports a
missing key: `None`. -/
def optJ : Option JValue → JValue
  | some v => v
  | none => .null

/-- Embed an optional string as a JSON value (`None` / `str`). -/
def optS : Option String → JValue
  | some s => .str s
  | none => .null

/-- Characters removed by Python's `str.strip()` (ASCII whitespace; the
service only ever strips ASCII payload fields). -/
def isPySpace (c : Char) : Bool :=
  c = ' ' || c = '\t' || c = '\n' || c = '\r' || c = '\x0b' || c = '\x0c'

/-- Python `str.strip()` on a character list. -/
def pyStripList (cs : List Char) : List Char :=
  ((cs.dropWhile isPySpace).reverse.dropWhile isPySpace).reverse

/-- Python `str.strip()`. -/
def pyStrip (s : String) : String :=
  ⟨pyStripList s.data⟩

/-- Embedding of `_safe_get` (src/main.py lines 100-109): walk a chain of
keys through nested optional mappings.  `cur = cur.get(p)` on a missing key
yields `None`, which the next loop iteration (or the final `is not None`
test) turns into the default.  Every operation in the Python body
(`isinstance`, `dict.get`, `is not None`) is total, so the embedding is a
plain function: `_safe_get` can never raise. -/
def _safe_get : JValue → List String → JValue → JValue
  | cur, [], dflt => match cur with
    | .null => dflt
    | v => v
  | .obj kvs, p :: ps, dflt => _safe_get (optJ (objGet kvs p)) ps dflt
  | _, _ :: _, dflt => dflt

/-- Claim-side description of the nested lookup: return the stored value
when every intermediate step is a mapping, every key is present and the
final value is non-`None`; return the default as soon as a step is not a
mapping, a key is missing, or the final value is `None`. -/
def specSafeGet : JValue → List String → JValue → JValue
  | v, [], dflt => match v with
    | .null => dflt
    | v' => v'
  | .obj kvs, k :: ks, dflt => (match objGet kvs k with
    | some v => specSafeGet v ks dflt
    | none => dflt)
  | _, _ :: _, dflt => dflt

theorem safe_get_null (ps : List String) (dflt : JValue) :
    _safe_get .null ps dflt = dflt := by
  cases ps <;> rfl

/-- C10: the nested-lookup helper `_safe_get` is total (it is a plain Lean
function, mirroring a Python body made only of non-raising operations) and
returns the stored value exactly when every step is a mapping with the key
present and the final value is non-None, the supplied default otherwise. -/
theorem safe_get_spec (d : JValue) (path : List String) (dflt : JValue) :
    _safe_get d path dflt = specSafeGet d path dflt := by
  induction path generalizing d with
  | nil => cases d <;> rfl
  | cons p ps ih =>
    cases d with
    | obj kvs =>
      show _safe_get (optJ (objGet kvs p)) ps dflt = _
      cases h : objGet kvs p with
      | some v => simpa [specSafeGet, h, optJ] using ih v
      | none => simp [specSafeGet, h, optJ, safe_get_null]
    | null => rfl
    | bool b => rfl
    | num n => rfl
    | str s => rfl
    | arr xs => rfl

/-!
Date formatting (`_fmt_date`, src/main.py lines 81-97).

The Python code tries `datetime.strptime` with the formats
`%Y.%m.%d`, `%Y-%m-%d`, `%d.%m.%Y`, `%Y%m%d`, `%d.%m.%y` in that order and
returns the first success reformatted with `strftime("%Y-%m-%d")`, else
`None`.  CPython's `_strptime` compiles each directive to a regular
expression — `%Y ↦ \d\d\d\d`, `%y ↦ \d\d`, `%m ↦ 1[0-2]|0[1-9]|[1-9]`,
`%d ↦ 3[01]|[12]\d|0[1-9]|[1-9]` — matches it at the start of the string
with ordered-alternation backtracking, then raises `ValueError` when
trailing characters remain ("unconverted data") or when the matched
numbers do not form a real calendar date (`datetime(year, month, day)`
validates year 1-9999 and day against the month length).  The model below
reproduces exactly that: ordered alternatives with backtracking through
the rest of the pattern, then the full-consumption and calendar checks. -/

/-- Numeric value of an ASCII digit character. -/
def digitVal (c : Char) : Nat := c.toNat - 48

/-- Match exactly `n` digit characters (the regex `\d` repeated), returning
their numeric value and the rest of the input. -/
def parseDigits : Nat → List Char → Option (Nat × List Char)
  | 0, cs => some (0, cs)
  | _ + 1, [] => none
  | n + 1, c :: cs =>
    if c.isDigit then
      (parseDigits n cs).map (fun vr => (digitVal c * 10 ^ n + vr.1, vr.2))
    else none

/-- Match one literal character. -/
def lit (c : Char) : List Char → Option (List Char)
  | x :: r => if x = c then some r else none
  | [] => none

/-- Ordered alternatives of the `%m` regex `1[0-2]|0[1-9]|[1-9]`: every
way the month directive can match a prefix, in regex alternation order. -/
def monthAlts (cs : List Char) : List (Nat × List Char) :=
  (match cs with
   | '1' :: c :: r => if '0' ≤ c && c ≤ '2' then [(10 + digitVal c, r)] else []
   | _ => []) ++
  (match cs with
   | '0' :: c :: r => if '1' ≤ c && c ≤ '9' then [(digitVal c, r)] else []
   | _ => []) ++
  (match cs with
   | c :: r => if '1' ≤ c && c ≤ '9' then [(digitVal c, r)] else []
   | _ => [])

/-- Ordered alternatives of the `%d` regex `3[01]|[12]\d|0[1-9]|[1-9]`. -/
def dayAlts (cs : List Char) : List (Nat × List Char) :=
  (match cs with
   | '3' :: c :: r => if '0' ≤ c && c ≤ '1' then [(30 + digitVal c, r)] else []
   | _ => []) ++
  (match cs with
   | c1 :: c2 :: r =>
     if ('1' ≤ c1 && c1 ≤ '2') && c2.isDigit then
       [(10 * digitVal c1 + digitVal c2, r)] else []
   | _ => []) ++
  (match cs with
   | '0' :: c :: r => if '1' ≤ c && c ≤ '9' then [(digitVal c, r)] else []
   | _ => []) ++
  (match cs with
   | c :: r => if '1' ≤ c && c ≤ '9' then [(digitVal c, r)] else []
   | _ => [])

/-- CPython `%y` pivot: two-digit years 00-68 are 2000-2068, 69-99 are
1969-1999. -/
def pivotY (y : Nat) : Nat := if y ≤ 68 then 2000 + y else 1900 + y

/-- The five formats `_fmt_date` tries, in source order. -/
inductive DateFmt where
  | yDotmDotd   -- "%Y.%m.%d"
  | yDashmDashd -- "%Y-%m-%d"
  | dDotmDotY   -- "%d.%m.%Y"
  | ymdCompact  -- "%Y%m%d"
  | dDotmDotyy  -- "%d.%m.%y"

/-- Regex match of one format against the input: the first assignment of
the directives (in alternation/backtracking order) that lets the whole
pattern match a prefix; returns (year, month, day, unconsumed rest). -/
def strptimeMatch : DateFmt → List Char → Option (Nat × Nat × Nat × List Char)
  | .yDotmDotd, cs =>
    (parseDigits 4 cs).bind fun yr =>
    (lit '.' yr.2).bind fun r2 =>
    (monthAlts r2).findSome? fun mr =>
    (lit '.' mr.2).bind fun r4 =>
    (dayAlts r4).findSome? fun dr =>
    some (yr.1, mr.1, dr.1, dr.2)
  | .yDashmDashd, cs =>
    (parseDigits 4 cs).bind fun yr =>
    (lit '-' yr.2).bind fun r2 =>
    (monthAlts r2).findSome? fun mr =>
    (lit '-' mr.2).bind fun r4 =>
    (dayAlts r4).findSome? fun dr =>
    some (yr.1, mr.1, dr.1, dr.2)
  | .dDotmDotY, cs =>
    (dayAlts cs).findSome? fun dr =>
    (lit '.' dr.2).bind fun r2 =>
    (monthAlts r2).findSome? fun mr =>
    (lit '.' mr.2).bind fun r4 =>
    (parseDigits 4 r4).map fun yr =>
    (yr.1, mr.1, dr.1, yr.2)
  | .ymdCompact, cs =>
    (parseDigits 4 cs).bind fun yr =>
    (monthAlts yr.2).findSome? fun mr =>
    (dayAlts mr.2).findSome? fun dr =>
    some (yr.1, mr.1, dr.1, dr.2)
  | .dDotmDotyy, cs =>
    (dayAlts cs).findSome? fun dr =>
    (lit '.' dr.2).bind fun r2 =>
    (monthAlts r2).findSome? fun mr =>
    (lit '.' mr.2).bind fun r4 =>
    (parseDigits 2 r4).map fun yr =>
    (pivotY yr.1, mr.1, dr.1, yr.2)

/-- Gregorian leap year (as `calendar.isleap` / `datetime`). -/
def isLeap (y : Nat) : Bool := y % 4 = 0 && (y % 100 != 0 || y % 400 = 0)

/-- Number of days in a month. -/
def daysInMonth (y m : Nat) : Nat :=
  if m = 2 then (if isLeap y then 29 else 28)
  else if m = 4 || m = 6 || m = 9 || m = 11 then 30
  else 31

/-- The validation `datetime(year, month, day)` performs: year 1-9999,
month 1-12, day within the month. -/
def validYmd (y m d : Nat) : Bool :=
  1 ≤ y && y ≤ 9999 && 1 ≤ m && m ≤ 12 && 1 ≤ d && d ≤ daysInMonth y m

/-- Embedding of `datetime.strptime(ds, fmt)` for the five formats used:
regex match, then the "unconverted data remains" check, then calendar
validation; `none` models a raised `ValueError`. -/
def strptime (fmt : DateFmt) (cs : List Char) : Option (Nat × Nat × Nat) :=
  match strptimeMatch fmt cs with
  | some (y, m, d, rest) =>
    if rest.isEmpty && validYmd y m d then some (y, m, d) else none
  | none => none

/-- Decimal numeral padded with zeroes to width 2 (`strftime` `%m`/`%d`). -/
def pad2 (n : Nat) : String := if n < 10 then "0" ++ toString n else toString n

/-- Decimal numeral padded with zeroes to width 4 (`strftime` `%Y`). -/
def pad4 (n : Nat) : String :=
  if n < 10 then "000" ++ toString n
  else if n < 100 then "00" ++ toString n
  else if n < 1000 then "0" ++ toString n
  else toString n

/-- `dt.strftime("%Y-%m-%d")`. -/
def fmtYmdOut (y m d : Nat) : String := pad4 y ++ "-" ++ pad2 m ++ "-" ++ pad2 d

/-- The format list of src/main.py line 90, in source order. -/
def FORMATS : List DateFmt :=
  [.yDotmDotd, .yDashmDashd, .dDotmDotY, .ymdCompact, .dDotmDotyy]

/-- The `for fmt in (...)` loop of `_fmt_date`: first format that parses
wins; its result is reformatted. -/
def tryFormatsLoop : List DateFmt → List Char → Option String
  | [], _ => none
  | f :: fs, ds =>
    match strptime f ds with
    | some (y, m, d) => some (fmtYmdOut y m d)
    | none => tryFormatsLoop fs ds

/-- Embedding of `_fmt_date` (src/main.py lines 81-97): `None` and the
empty string are falsy and short-circuit to `None`; otherwise the stripped
string is tried against the format list. -/
def _fmt_date : Option String → Option String
  | none => none
  | some s => if s = "" then none else tryFormatsLoop FORMATS (pyStripList s.data)

/-- Claim-side single-format parse: strip, parse with one candidate
format, reformat to `YYYY-MM-DD`. -/
def parseOneFmt (f : DateFmt) (s : String) : Option String :=
  (strptime f (pyStripList s.data)).map fun t => fmtYmdOut t.1 t.2.1 t.2.2

/-- First successful result in a list of attempts. -/
def firstSuccess : List (Option String) → Option String
  | [] => none
  | some s :: _ => some s
  | none :: rest => firstSuccess rest

/-- Claim-side description of the date formatter: try the five candidate
formats in the exact order `YYYY.MM.DD`, `YYYY-MM-DD`, `DD.MM.YYYY`,
`YYYYMMDD`, `DD.MM.YY`; accept the first successful parse; reformat to
`YYYY-MM-DD`; `null` when no format matches. -/
def spec_fmt_date (s : String) : Option String :=
  firstSuccess
    [parseOneFmt .yDotmDotd s, parseOneFmt .yDashmDashd s,
     parseOneFmt .dDotmDotY s, parseOneFmt .ymdCompact s,
     parseOneFmt .dDotmDotyy s]

/-!
Result normalization (`_normalize_hit`, src/main.py lines 145-222).

The Python body mixes guarded lookups (`_safe_get`, total) with raw
attribute access (`.strip()` on values assumed to be strings, `.get` on
values assumed to be dicts, `" ".join` over values assumed to be strings)
and ends with pydantic validation of the `PatentItem` fields.  The raw
accesses raise on a value of the wrong type, so the embedding runs in
`Except String`; an `Except.error` models the raised exception. -/

/-- Output item schema (the pydantic `PatentItem` model, src/main.py
lines 57-66). -/
structure PatentItem where
  publicationNumber : Option String := none
  kindCode : Option String := none
  country : Option String := none
  publicationDate : Option String := none
  titleOriginal : Option String := none
  titleRu : Option String := none
  abstractOriginal : Option String := none
  abstractRu : Option String := none
  ipc : Option (List String) := none
deriving Repr

/-- Python `v.strip()`: succeeds only when `v` is a string
(`AttributeError` otherwise). -/
def pyStrStrip : JValue → Except String String
  | .str s => .ok (pyStrip s)
  | _ => .error "AttributeError"

/-- Python `v.get(k)`: succeeds only when `v` is a dict
(`AttributeError` otherwise); a missing key yields `None`. -/
def pyGetAttrGet : JValue → String → Except String (Option JValue)
  | .obj kvs, k => .ok (objGet kvs k)
  | _, _ => .error "AttributeError"

/-- Pydantic validation of an `Optional[str]` field: `None` and strings
pass, anything else raises a `ValidationError`. -/
def validateOptStr : JValue → Except String (Option String)
  | .null => .ok none
  | .str s => .ok (some s)
  | _ => .error "ValidationError"

/-- Pydantic validation of a `str` list element. -/
def validateStr : JValue → Except String String
  | .str s => .ok s
  | _ => .error "ValidationError"

/-- Python `" ".join(bits)`: `TypeError` when a member is not a string. -/
def pyJoinSp : List JValue → Except String String
  | [] => .ok ""
  | [.str s] => .ok s
  | .str s :: rest => (pyJoinSp rest).map fun r => s ++ " " ++ r
  | _ => .error "TypeError"

/-- `_fmt_date(raw)` applied to an arbitrary JSON value, the way
`_normalize_hit` line 179 calls it: falsy values short-circuit to `None`
inside `_fmt_date`, truthy non-strings raise at `date_str.strip()`. -/
def pyFmtDateJ : JValue → Except String (Option String)
  | .str s => .ok (_fmt_date (some s))
  | v => if pyTruthy v then .error "AttributeError" else .ok none

/-- Body of the `for entry in ipc_entries` loop (src/main.py lines
198-210): prefer a truthy `fullname`, else the truthy members of
`[main_group, subgroup]` joined by a single space; contribute nothing when
both are falsy. -/
def entryContrib (mgV sgV fcV : JValue) : Except String (List JValue) :=
  if pyTruthy fcV then .ok [fcV]
  else
    let bits := [mgV, sgV].filter pyTruthy
    if bits.isEmpty then .ok []
    else (pyJoinSp bits).map fun s => [.str s]

/-- The whole `ipc_entries` loop: each entry's three `entry.get` calls
(raising on a non-dict entry), then its contribution, in list order. -/
def ipcLoop : List JValue → Except String (List JValue)
  | [] => .ok []
  | entry :: rest => do
    let mg ← pyGetAttrGet entry "main_group"
    let sg ← pyGetAttrGet entry "subgroup"
    let fc ← pyGetAttrGet entry "fullname"
    let contrib ← entryContrib (optJ mg) (optJ sg) (optJ fc)
    let tail ← ipcLoop rest
    pure (contrib ++ tail)

/-- The flat-string fallback statement pair (src/main.py lines 185-186
and 191-192): `if not prim and isinstance(biblio.get(key), str): prim =
biblio.get(key)`.  The Python `and` short-circuits, so `biblio.get` is
only reached when `prim` is falsy. -/
def flatFallbackStep (biblio primV : JValue) (key : String) :
    Except String JValue :=
  if pyTruthy primV then pure primV
  else do
    let ft ← pyGetAttrGet biblio key
    match ft with
    | some (.str s) => pure (JValue.str s)
    | _ => pure primV

/-- Embedding of `_normalize_hit` (src/main.py lines 145-222), field by
field in source order.  `Except.error` models an exception escaping the
function (there is no `try` inside it). -/
def _normalize_hit (hit : JValue) : Except String PatentItem := do
  let common := _safe_get hit ["common"] (.obj [])
  let biblio := _safe_get hit ["biblio"] (.obj [])
  let ru_block := _safe_get biblio ["ru"] (.obj [])
  let en_block := _safe_get biblio ["en"] (.obj [])
  -- publication number block (lines 164-175)
  let countryS ← pyStrStrip (_safe_get common ["publishing_office"] (.str ""))
  let country : Option String := if countryS = "" then none else some countryS
  let docnum ← pyStrStrip (_safe_get common ["document_number"] (.str ""))
  let kind ← pyStrStrip (_safe_get common ["kind"] (.str ""))
  let pub_number : Option String :=
    if docnum ≠ "" then
      match country with
      | some c => some (c ++ docnum ++ kind)
      | none => if kind ≠ "" then some (docnum ++ kind) else some docnum
    else none
  -- publication date (lines 177-179)
  let pub_date ← pyFmtDateJ (_safe_get common ["publication_date"] .null)
  -- titles (lines 181-186); `biblio.get("title")` is reached only when
  -- `title_ru` is falsy (the Python `and` short-circuits)
  let title_ru0 := _safe_get ru_block ["title"] .null
  let title_en := _safe_get en_block ["title"] .null
  let title_ru ← flatFallbackStep biblio title_ru0 "title"
  -- abstracts (lines 189-192)
  let abstr_ru0 := _safe_get ru_block ["abstract"] .null
  let abstr_en := _safe_get en_block ["abstract"] .null
  let abstr_ru ← flatFallbackStep biblio abstr_ru0 "abstract"
  -- IPC (lines 194-210); note `classification.get("ipc")` raises when
  -- `classification` is present but not a mapping
  let classification := _safe_get common ["classification"] (.obj [])
  let ipcV ← pyGetAttrGet classification "ipc"
  let ipc_entries : List JValue := match ipcV with
    | some (.arr xs) => xs
    | _ => []
  let ipc_list ← ipcLoop ipc_entries
  -- PatentItem construction and pydantic validation (lines 212-222)
  let titleOriginal ← validateOptStr (if pyTruthy title_en then title_en else title_ru)
  let titleRu ← validateOptStr title_ru
  let abstractOriginal ← validateOptStr (if pyTruthy abstr_en then abstr_en else abstr_ru)
  let abstractRu ← validateOptStr abstr_ru
  let ipc ← (if ipc_list.isEmpty then pure none
             else (ipc_list.mapM validateStr).map some)
  pure { publicationNumber := pub_number
         kindCode := if kind = "" then none else some kind
         country := country
         publicationDate := pub_date
         titleOriginal := titleOriginal
         titleRu := titleRu
         abstractOriginal := abstractOriginal
         abstractRu := abstractRu
         ipc := ipc }

/-!
Upstream request payload and the `/search` endpoint
(src/main.py lines 112-142 and 238-280).

`_query_rospatent` performs the POST itself; its transport is modelled as
a parameter `upstreamF : JValue → Except String JValue` mapping the
payload the code builds to either the parsed response JSON or an error
(non-2xx status, timeout, connection failure, `raise_for_status`).  The
`try` block of `search` catches every exception and answers the fallback
empty `SearchResponse` with HTTP 200 (a normal return). -/

/-- Output response schema (the pydantic `SearchResponse` model,
src/main.py lines 69-74). -/
structure SearchResponse where
  total : Int
  page : Int
  size : Int
  nextPage : Option Int
  items : List PatentItem
deriving Repr

/-- The fixed dataset list (src/main.py lines 18-41). -/
def DEFAULT_DATASETS : List String :=
  ["ru_till_1994", "ru_since_1994", "cis", "dsgn_ru", "ap", "cn", "ch",
   "au", "gb", "kr", "ca", "at", "de", "es", "fr", "jp", "us", "wo",
   "pctmin", "pctapp", "pctpub", "smallfond"]

/-- The request body `_query_rospatent` builds (src/main.py lines
119-133), keys in source order. -/
def queryPayload (query : String) (offset limit : Int) : JValue :=
  .obj [("qn", .str query),
        ("offset", .num offset),
        ("limit", .num limit),
        ("sort", .str "relevance"),
        ("preffered_lang", .str "ru"),
        ("countStatistics", .bool true),
        ("include_facets", .num 0),
        ("highlight", .obj [("profiles", .arr [.str "_searchquery_"])]),
        ("datasets", .arr (DEFAULT_DATASETS.map .str)),
        ("pre_tag", .str "<span style=\x27background: yellow\x27 class=\"marked-element\">"),
        ("post_tag", .str "</span>")]

/-- Field lookup in a payload object (used to state what the service
sends upstream). -/
def payloadField (v : JValue) (k : String) : Option JValue :=
  match v with
  | .obj kvs => objGet kvs k
  | _ => none

/-- The payload `search` hands to `_query_rospatent`: line 251 computes
`offset = (page - 1) * size` and line 252 forwards `q`, `offset`, `size`. -/
def sentPayload (q : String) (page size : Int) : JValue :=
  queryPayload q ((page - 1) * size) size

/-- Python `v.get(k, dflt)` on the raw response: raises on a non-dict;
returns the stored value (even `None`) when the key is present, the
default only when it is absent. -/
def pyDictGet : JValue → String → JValue → Except String JValue
  | .obj kvs, k, dflt => .ok (match objGet kvs k with
    | some v => v
    | none => dflt)
  | _, _, _ => .error "AttributeError"

/-- Python `len(v)`: defined for strings, lists, dicts; `TypeError`
otherwise. -/
def pyLen : JValue → Except String Int
  | .str s => .ok (s.length : Int)
  | .arr xs => .ok (xs.length : Int)
  | .obj kvs => .ok (kvs.length : Int)
  | _ => .error "TypeError"

/-- Python `for h in v`: lists yield their elements, strings their
characters (as one-character strings), dicts their keys; other values
raise `TypeError`. -/
def pyIter : JValue → Except String (List JValue)
  | .arr xs => .ok xs
  | .str s => .ok (s.data.map fun c => .str (String.singleton c))
  | .obj kvs => .ok (kvs.map fun kv => .str kv.1)
  | _ => .error "TypeError"

/-- Python `lhs < v` with an integer left operand: integers compare,
booleans compare as 0/1, anything else raises `TypeError`. -/
def pyLtInt (lhs : Int) : JValue → Except String Bool
  | .num n => .ok (decide (lhs < n))
  | .bool b => .ok (decide (lhs < (if b then (1 : Int) else 0)))
  | _ => .error "TypeError"

/-- Pydantic validation of the `total: int` field. -/
def validateInt : JValue → Except String Int
  | .num n => .ok n
  | _ => .error "ValidationError"

/-- Body of the `try` block of `search` (src/main.py lines 250-268) after
the upstream call: extract `hits` and `total` (`len(hits)` is evaluated
eagerly as the `.get` default), normalize every hit in order, compute
`nextPage`, build the response.  An error anywhere is the exception the
`except` clause catches. -/
def searchBody (raw : Except String JValue) (page size offset : Int) :
    Except String SearchResponse := do
  let r ← raw
  let hitsV ← pyDictGet r "hits" (.arr [])
  let hitsLen ← pyLen hitsV
  let totalV ← pyDictGet r "total" (.num hitsLen)
  let hitsList ← pyIter hitsV
  let items ← hitsList.mapM _normalize_hit
  let moreB ← pyLtInt (offset + size) totalV
  let next_page : Option Int := if moreB then some (page + 1) else none
  let totalInt ← validateInt totalV
  pure { total := totalInt, page := page, size := size,
         nextPage := next_page, items := items }

/-- The response of the `except` clause (src/main.py lines 270-280):
HTTP 200 with an empty result set echoing `page` and `size`. -/
def fallbackSearchResponse (page size : Int) : SearchResponse :=
  { total := 0, page := page, size := size, nextPage := none, items := [] }

/-- Embedding of the `/search` endpoint (src/main.py lines 238-280).
`upstreamF` models the transport of `_query_rospatent`: it receives the
payload the code builds and yields the parsed JSON or a transport/HTTP
error.  A normal `SearchResponse` return is an HTTP 200 answer. -/
def search (q : String) (page size : Int)
    (upstreamF : JValue → Except String JValue) : SearchResponse :=
  match searchBody (upstreamF (sentPayload q page size)) page size
      ((page - 1) * size) with
  | .ok resp => resp
  | .error _ => fallbackSearchResponse page size

/-!
Reduction lemmas for the `Except` embedding monad.
-/

@[simp] theorem exc_ok_bind {α β : Type} (a : α) (f : α → Except String β) :
    (Except.ok a >>= f) = f a := rfl

@[simp] theorem exc_error_bind {α β : Type} (e : String) (f : α → Except String β) :
    ((Except.error e : Except String α) >>= f) = .error e := rfl

@[simp] theorem exc_pure {α : Type} (a : α) :
    (pure a : Except String α) = .ok a := rfl

@[simp] theorem exc_map_ok {α β : Type} (f : α → β) (a : α) :
    (Except.ok a : Except String α).map f = .ok (f a) := rfl

@[simp] theorem exc_map_error {α β : Type} (f : α → β) (e : String) :
    (Except.error e : Except String α).map f = .error e := rfl

/-!
C1 and C2: the normalizer is not total, and one raising hit aborts the
whole batch.

The spec requires `_normalize_hit` to degrade malformed structure to
null/default and "never fail"; its own example is a record whose
`common.classification` is a string.  On exactly that record the code
raises: `_safe_get(common, "classification", default={})` returns the
string itself (it is non-`None`), and line 197 then calls
`classification.get("ipc")` on it — `AttributeError`.  Because the batch
is normalized by a single list comprehension inside the endpoint's `try`
block, that exception also discards the items of every other hit of the
batch. -/

/-- The spec's own malformed record: `common.classification` is a string
instead of a mapping. -/
def classificationStringHit : JValue :=
  .obj [("common", .obj [("classification", .str "A01B 3/00")])]

/-- C1: contrary to the claim, the normalizer does not return a
`PatentItem` with `ipc = null` on the spec's malformed record — it raises
`AttributeError` (modelled as `Except.error`) at
`classification.get("ipc")`, src/main.py line 197. -/
theorem normalize_hit_raises_on_string_classification :
    _normalize_hit classificationStringHit = .error "AttributeError" := rfl

/-- A well-formed hit that normalizes to an item with publication number
"123". -/
def goodDocHit : JValue :=
  .obj [("common", .obj [("document_number", .str "123")])]

/-- An upstream response whose batch holds one good hit and one hit with
a string `classification`. -/
def malformedBatchUpstream : JValue :=
  .obj [("hits", .arr [goodDocHit, classificationStringHit]),
        ("total", .num 2)]

/-- C2: contrary to the claim, one malformed hit aborts normalization of
the whole batch: the good hit normalizes on its own to an item (second
conjunct), yet the search response for the two-hit batch is the fallback
with `items = []` — the good hit's item is discarded (first conjunct). -/
theorem one_malformed_hit_aborts_batch :
    search "q" 1 25 (fun _ => .ok malformedBatchUpstream) =
      { total := 0, page := 1, size := 25, nextPage := none, items := [] } ∧
    _normalize_hit goodDocHit = .ok { publicationNumber := some "123" } :=
  ⟨rfl, rfl⟩

/-!
C5: on any upstream or normalization failure, `/search` answers HTTP 200
with the empty `SearchResponse`.
-/

/-- C5: whenever the upstream call fails (first conjunct) or the
upstream call succeeds and the response processing — extraction,
normalization, pagination, validation — fails (second conjunct), the
endpoint returns normally (HTTP 200) with `total = 0`, `nextPage = null`
and `items = []`, echoing `page` and `size`. -/
theorem search_failure_yields_empty_response :
    (∀ (q : String) (page size : Int) (F : JValue → Except String JValue)
       (e : String),
       F (sentPayload q page size) = .error e →
       search q page size F =
         { total := 0, page := page, size := size, nextPage := none,
           items := [] }) ∧
    (∀ (q : String) (page size : Int) (F : JValue → Except String JValue)
       (raw : JValue) (e : String),
       F (sentPayload q page size) = .ok raw →
       searchBody (.ok raw) page size ((page - 1) * size) = .error e →
       search q page size F =
         { total := 0, page := page, size := size, nextPage := none,
           items := [] }) := by
  constructor
  · intro q page size F e h
    unfold search
    rw [h]
    rfl
  · intro q page size F raw e h1 h2
    unfold search
    rw [h1, h2]
    rfl

/-- Witness for C5 at concrete inputs: a timed-out upstream call, and an
upstream answer that is not even a JSON object (so `raw.get("hits", [])`
raises). -/
theorem search_failure_yields_empty_response_witness :
    search "q" 1 10 (fun _ => .error "timeout") =
      { total := 0, page := 1, size := 10, nextPage := none, items := [] } ∧
    search "q" 2 10 (fun _ => .ok (.num 3)) =
      { total := 0, page := 2, size := 10, nextPage := none, items := [] } :=
  ⟨search_failure_yields_empty_response.1 "q" 1 10 _ "timeout" rfl,
   search_failure_yields_empty_response.2 "q" 2 10 _ (.num 3)
     "AttributeError" rfl rfl⟩

/-!
C3 and C9: pagination bookkeeping and the upstream request parameters.
-/

theorem searchBody_empty_hits (page size offset total : Int) :
    searchBody (.ok (.obj [("hits", .arr []), ("total", .num total)]))
        page size offset =
      .ok { total := total, page := page, size := size,
            nextPage := if offset + size < total then some (page + 1) else none,
            items := [] } := by
  unfold searchBody
  simp [pyDictGet, objGet, pyLen, pyIter, pyLtInt, validateInt,
    List.mapM, List.mapM.loop]

/-- C3: for a successful upstream answer carrying `total`, the response's
`nextPage` is `page + 1` exactly when `offset + size < total` with
`offset = (page - 1) * size`, and null otherwise (general statement for an
empty hit list, whose normalization always succeeds); in particular
`total = 100, page = 4, size = 25` gives `nextPage = null` and
`total = 101` with the same page and size gives `nextPage = 5`. -/
theorem next_page_formula :
    (∀ (q : String) (page size total : Int)
       (F : JValue → Except String JValue),
       1 ≤ page → 1 ≤ size → size ≤ 25 →
       F (sentPayload q page size) =
         .ok (.obj [("hits", .arr []), ("total", .num total)]) →
       (search q page size F).nextPage =
         if (page - 1) * size + size < total then some (page + 1) else none) ∧
    (search "q" 4 25
        (fun _ => .ok (.obj [("hits", .arr []), ("total", .num 100)]))).nextPage
      = none ∧
    (search "q" 4 25
        (fun _ => .ok (.obj [("hits", .arr []), ("total", .num 101)]))).nextPage
      = some 5 := by
  refine ⟨?_, ?_, ?_⟩
  · intro q page size total F _ _ _ hF
    unfold search
    rw [hF, searchBody_empty_hits]
  · rfl
  · rfl

/-- Witness for C3 at concrete inputs: page 1, size 1, total 5 gives
`nextPage = 2`. -/
theorem next_page_formula_witness :
    (search "q" 1 1
        (fun _ => .ok (.obj [("hits", .arr []), ("total", .num 5)]))).nextPage
      = some 2 := by
  have h := next_page_formula.1 "q" 1 1 5
    (fun _ => .ok (.obj [("hits", .arr []), ("total", .num 5)]))
    (by decide) (by decide) (by decide) rfl
  simpa using h

/-- C9: for valid `page ≥ 1` and `size` in the accepted range 1..25, the
payload the endpoint hands to `_query_rospatent` carries
`offset = (page - 1) * size` exactly and the requested `size` verbatim as
the upstream `limit`. -/
theorem upstream_offset_limit :
    ∀ (q : String) (page size : Int), 1 ≤ page → 1 ≤ size → size ≤ 25 →
      payloadField (sentPayload q page size) "offset" =
          some (.num ((page - 1) * size)) ∧
        payloadField (sentPayload q page size) "limit" = some (.num size) := by
  intro q page size _ _ _
  exact ⟨rfl, rfl⟩

/-- Witness for C9 at page 2, size 25: offset 25, limit 25. -/
theorem upstream_offset_limit_witness :
    payloadField (sentPayload "q" 2 25) "offset" = some (.num 25) ∧
    payloadField (sentPayload "q" 2 25) "limit" = some (.num 25) := by
  have h := upstream_offset_limit "q" 2 25 (by decide) (by decide) (by decide)
  simpa using h

/-!
C4: the date formatter tries the five formats in order, first success
wins.
-/

theorem tryFormatsLoop_firstSuccess (fs : List DateFmt) (ds : List Char) :
    tryFormatsLoop fs ds =
      firstSuccess
        (fs.map fun f => (strptime f ds).map fun t => fmtYmdOut t.1 t.2.1 t.2.2) := by
  induction fs with
  | nil => rfl
  | cons f fs ih =>
    cases h : strptime f ds with
    | some t =>
      obtain ⟨y, m, d⟩ := t
      simp [tryFormatsLoop, firstSuccess, h]
    | none => simp [tryFormatsLoop, firstSuccess, h, ih]

/-- C4: the date formatter agrees with the ordered-candidate description
(try `YYYY.MM.DD`, `YYYY-MM-DD`, `DD.MM.YYYY`, `YYYYMMDD`, `DD.MM.YY` in
that exact order, accept the first successful parse, reformat to
`YYYY-MM-DD`, null when no format matches), and maps the spec's examples
accordingly. -/
theorem fmt_date_spec :
    (∀ s : String, _fmt_date (some s) = spec_fmt_date s) ∧
    _fmt_date (some "2020.03.31") = some "2020-03-31" ∧
    _fmt_date (some "23.09.2025") = some "2025-09-23" ∧
    _fmt_date (some "20200331") = some "2020-03-31" ∧
    _fmt_date (some "not-a-date") = none := by
  refine ⟨?_, ?_, ?_, ?_, ?_⟩
  · intro s
    by_cases h : s = ""
    · subst h
      rfl
    · simp only [_fmt_date, if_neg h, spec_fmt_date, parseOneFmt]
      exact tryFormatsLoop_firstSuccess FORMATS (pyStripList s.data)
  · rfl
  · rfl
  · rfl
  · rfl

/-!
C6: publication number composition.
-/

/-- A hit whose `common` block carries office, document number and kind
as strings (the shape the publication-number block reads). -/
def mkCommonHit (office docnum kind : String) : JValue :=
  .obj [("common", .obj [("publishing_office", .str office),
                         ("document_number", .str docnum),
                         ("kind", .str kind)])]

/-- The same hit without a `publishing_office` key. -/
def mkCommonHitNoOffice (docnum kind : String) : JValue :=
  .obj [("common", .obj [("document_number", .str docnum),
                         ("kind", .str kind)])]

/-- Claim-side publication-number composition over already-trimmed
fields: office + document number + kind when both document number and
office are present (non-empty), document number + kind (kind only when
non-empty) when the office is absent, null when the document number is
absent. -/
def specPubNumber (office docnum kind : String) : Option String :=
  if docnum = "" then none
  else if office ≠ "" then some (office ++ docnum ++ kind)
  else if kind ≠ "" then some (docnum ++ kind)
  else some docnum

theorem pyStrip_empty : pyStrip "" = "" := rfl

/-- C6: the normalizer's publication number is exactly the claim's
composition of the trimmed office / document number / kind — with the
office key present (first conjunct) or absent (second conjunct, an absent
office behaving as empty) — and the spec's two examples hold. -/
theorem publication_number_composition :
    (∀ office docnum kind : String,
       (_normalize_hit (mkCommonHit office docnum kind)).map
           (·.publicationNumber) =
         .ok (specPubNumber (pyStrip office) (pyStrip docnum) (pyStrip kind))) ∧
    (∀ docnum kind : String,
       (_normalize_hit (mkCommonHitNoOffice docnum kind)).map
           (·.publicationNumber) =
         .ok (specPubNumber "" (pyStrip docnum) (pyStrip kind))) ∧
    (_normalize_hit (mkCommonHit "RU" "2712345" "C1")).map
        (·.publicationNumber) = .ok (some "RU2712345C1") ∧
    (_normalize_hit (mkCommonHitNoOffice "123" "")).map
        (·.publicationNumber) = .ok (some "123") := by
  refine ⟨?_, ?_, ?_, ?_⟩
  · intro o d k
    by_cases ho : pyStrip o = "" <;> by_cases hd : pyStrip d = "" <;>
      by_cases hk : pyStrip k = "" <;>
      simp [_normalize_hit, mkCommonHit, specPubNumber, _safe_get, objGet,
        optJ, pyStrStrip, pyGetAttrGet, pyFmtDateJ, pyTruthy, validateOptStr,
        ipcLoop, flatFallbackStep, ho, hd, hk]
  · intro d k
    by_cases hd : pyStrip d = "" <;> by_cases hk : pyStrip k = "" <;>
      simp [_normalize_hit, mkCommonHitNoOffice, specPubNumber, _safe_get,
        objGet, optJ, pyStrStrip, pyGetAttrGet, pyFmtDateJ, pyTruthy,
        validateOptStr, ipcLoop, flatFallbackStep, pyStrip_empty, hd, hk]
  · rfl
  · rfl

/-!
C7: title and abstract language fallbacks.
-/

/-- A hit whose `biblio` block carries optional `en`/`ru` title and
abstract strings and optional flat `biblio.title` / `biblio.abstract`
strings (an absent field is modelled as JSON null, which the lookup chain
treats exactly like a missing key). -/
def mkBiblioHit (enT ruT flatT enA ruA flatA : Option String) : JValue :=
  .obj [("biblio", .obj
    [("en", .obj [("title", optS enT), ("abstract", optS enA)]),
     ("ru", .obj [("title", optS ruT), ("abstract", optS ruA)]),
     ("title", optS flatT),
     ("abstract", optS flatA)])]

/-- Claim-side flat-string fallback: the `ru` value when it is a
non-empty string, else the flat `biblio`-level string when that is a
string, else whatever the `ru` lookup produced. -/
def specFlatFallback : Option String → Option String → Option String
  | some r, flat =>
    if r = "" then (match flat with
      | some f => some f
      | none => some r)
    else some r
  | none, flat => flat

/-- Claim-side language preference (`en or ru`): the `en` value when
non-empty, else the (fallback-resolved) `ru` value. -/
def specLangOr : Option String → Option String → Option String
  | some e, second => if e = "" then second else some e
  | none, second => second

theorem validateOptStr_optS (x : Option String) :
    validateOptStr (optS x) = .ok x := by
  cases x <;> rfl

theorem safe_get_nil_optS (x : Option String) :
    _safe_get (optS x) [] .null = optS x := by
  cases x <;> rfl

theorem flatFallbackStep_mk (kvs : List (String × JValue)) (key : String)
    (prim flat : Option String)
    (hk : objGet kvs key = some (optS flat)) :
    flatFallbackStep (.obj kvs) (optS prim) key =
      .ok (optS (specFlatFallback prim flat)) := by
  cases prim with
  | none =>
    cases flat <;>
      simp [flatFallbackStep, pyTruthy, optS, pyGetAttrGet, hk, specFlatFallback]
  | some r =>
    by_cases hr : r = "" <;> cases flat <;>
      simp [flatFallbackStep, pyTruthy, optS, pyGetAttrGet, hk,
        specFlatFallback, hr]

theorem optS_none : optS none = .null := rfl

theorem optS_some (s : String) : optS (some s) = .str s := rfl

theorem pyFmtDateJ_null : pyFmtDateJ .null = .ok none := rfl

theorem validateOptStr_langOr (e eff : Option String) :
    validateOptStr (if pyTruthy (optS e) then optS e else optS eff) =
      .ok (specLangOr e eff) := by
  cases e with
  | none => simp [pyTruthy, optS_none, specLangOr, validateOptStr_optS]
  | some s =>
    cases eff <;> by_cases hs : s = "" <;>
      simp [pyTruthy, optS_some, optS_none, specLangOr, hs, validateOptStr]

theorem flatFallbackStep_title (enT ruT flatT enA ruA flatA : Option String) :
    flatFallbackStep
        (.obj [("en", .obj [("title", optS enT), ("abstract", optS enA)]),
               ("ru", .obj [("title", optS ruT), ("abstract", optS ruA)]),
               ("title", optS flatT), ("abstract", optS flatA)])
        (optS ruT) "title" = .ok (optS (specFlatFallback ruT flatT)) :=
  flatFallbackStep_mk _ _ _ _ rfl

theorem flatFallbackStep_abstract (enT ruT flatT enA ruA flatA : Option String) :
    flatFallbackStep
        (.obj [("en", .obj [("title", optS enT), ("abstract", optS enA)]),
               ("ru", .obj [("title", optS ruT), ("abstract", optS ruA)]),
               ("title", optS flatT), ("abstract", optS flatA)])
        (optS ruA) "abstract" = .ok (optS (specFlatFallback ruA flatA)) :=
  flatFallbackStep_mk _ _ _ _ rfl

/-- C7: on a hit with optional `biblio.en` / `biblio.ru` / flat `biblio`
title and abstract strings, `titleOriginal` is `biblio.en.title`, else
`biblio.ru.title`, else (when `biblio.title` is a plain string) that
string; `titleRu` is `biblio.ru.title` with the same flat-string
fallback; the abstract fields follow the identical pattern; and a hit
with only a flat `biblio.title = "Foo"` yields both `titleOriginal` and
`titleRu` equal to `"Foo"`. -/
theorem title_abstract_fallback :
    (∀ enT ruT flatT enA ruA flatA : Option String,
       (_normalize_hit (mkBiblioHit enT ruT flatT enA ruA flatA)).map
           (fun i => (i.titleOriginal, i.titleRu, i.abstractOriginal,
             i.abstractRu)) =
         .ok (specLangOr enT (specFlatFallback ruT flatT),
              specFlatFallback ruT flatT,
              specLangOr enA (specFlatFallback ruA flatA),
              specFlatFallback ruA flatA)) ∧
    (_normalize_hit (mkBiblioHit none none (some "Foo") none none none)).map
        (fun i => (i.titleOriginal, i.titleRu)) = .ok (some "Foo", some "Foo") := by
  constructor
  · intro enT ruT flatT enA ruA flatA
    simp [_normalize_hit, mkBiblioHit, _safe_get, objGet, optJ, pyStrStrip,
      pyGetAttrGet, pyFmtDateJ_null, ipcLoop, pyStrip_empty,
      safe_get_nil_optS, flatFallbackStep_title, flatFallbackStep_abstract,
      validateOptStr_langOr, validateOptStr_optS]
  · rfl

/-!
C8: derivation of the `ipc` classification list.
-/

/-- Recognizer for JSON lists. -/
def JValue.isArr : JValue → Bool
  | .arr _ => true
  | _ => false

/-- An IPC entry with optional string fields (an absent field modelled as
JSON null, which `entry.get` reports as `None` just like a missing key). -/
def mkIpcEntry (mg sg fc : Option String) : JValue :=
  .obj [("main_group", optS mg), ("subgroup", optS sg), ("fullname", optS fc)]

/-- A hit whose `common.classification.ipc` is a list of such entries. -/
def mkIpcHit (es : List (Option String × Option String × Option String)) :
    JValue :=
  .obj [("common", .obj [("classification", .obj
    [("ipc", .arr (es.map fun e => mkIpcEntry e.1 e.2.1 e.2.2))])])]

/-- A hit whose `common.classification.ipc` is an arbitrary value. -/
def mkIpcRawHit (v : JValue) : JValue :=
  .obj [("common", .obj [("classification", .obj [("ipc", v)])])]

/-- Join strings with a single space (`" ".join`). -/
def joinSp : List String → String
  | [] => ""
  | [s] => s
  | s :: rest => s ++ " " ++ joinSp rest

/-- Keep a field only when it is present and non-empty (the source tests
plain truthiness, under which an absent field and an empty string
coincide). -/
def keepTruthy : Option String → Option String
  | some s => if s = "" then none else some s
  | none => none

/-- Claim-side contribution of one IPC entry: its `fullname` when present
(non-empty), else the non-empty members of `[main_group, subgroup]`
joined with a single space, nothing when both are empty/absent. -/
def specIpcEntry (mg sg fc : Option String) : Option String :=
  match keepTruthy fc with
  | some f => some f
  | none =>
    match [mg, sg].filterMap keepTruthy with
    | [] => none
    | bits => some (joinSp bits)

/-- Claim-side `ipc` field: the ordered entry contributions, null when
none. -/
def specIpc (es : List (Option String × Option String × Option String)) :
    Option (List String) :=
  let l := es.filterMap fun e => specIpcEntry e.1 e.2.1 e.2.2
  if l.isEmpty then none else some l

/-- Zero-or-one-element contribution list of one entry. -/
def contribList : Option String → List JValue
  | some s => [.str s]
  | none => []

theorem pyJoinSp_strs (l : List String) :
    pyJoinSp (l.map JValue.str) = .ok (joinSp l) := by
  induction l with
  | nil => rfl
  | cons s rest ih =>
    cases rest with
    | nil => rfl
    | cons t ts =>
      simp only [List.map_cons] at ih
      simp [pyJoinSp, joinSp, ih]

theorem pyJoinSp_strs_cons (x : String) (xs : List String) :
    pyJoinSp (JValue.str x :: xs.map JValue.str) = .ok (joinSp (x :: xs)) := by
  simpa using pyJoinSp_strs (x :: xs)

theorem bits_mk (mg sg : Option String) :
    [optS mg, optS sg].filter pyTruthy =
      ([mg, sg].filterMap keepTruthy).map JValue.str := by
  cases mg with
  | none =>
    cases sg with
    | none => rfl
    | some b =>
      by_cases hb : b = "" <;>
        simp [optS_none, optS_some, keepTruthy, pyTruthy, hb, bne_iff_ne,
          List.filter_cons, List.filterMap_cons]
  | some a =>
    cases sg with
    | none =>
      by_cases ha : a = "" <;>
        simp [optS_none, optS_some, keepTruthy, pyTruthy, ha, bne_iff_ne,
          List.filter_cons, List.filterMap_cons]
    | some b =>
      by_cases ha : a = "" <;> by_cases hb : b = "" <;>
        simp [optS_none, optS_some, keepTruthy, pyTruthy, ha, hb, bne_iff_ne,
          List.filter_cons, List.filterMap_cons]

theorem entryContrib_mk (mg sg fc : Option String) :
    entryContrib (optS mg) (optS sg) (optS fc) =
      .ok (contribList (specIpcEntry mg sg fc)) := by
  have joinBranch :
      (let bits := [optS mg, optS sg].filter pyTruthy
       if bits.isEmpty then (.ok [] : Except String (List JValue))
       else (pyJoinSp bits).map fun s => [JValue.str s]) =
        .ok (contribList (match [mg, sg].filterMap keepTruthy with
          | [] => none
          | bits => some (joinSp bits))) := by
    simp only [bits_mk]
    cases h : [mg, sg].filterMap keepTruthy with
    | nil => simp [contribList]
    | cons x xs => simp [contribList, pyJoinSp_strs_cons]
  cases fc with
  | some f =>
    by_cases hf : f = ""
    · simpa [entryContrib, pyTruthy, optS_some, hf, specIpcEntry, keepTruthy]
        using joinBranch
    · simp [entryContrib, pyTruthy, optS_some, hf, specIpcEntry, keepTruthy,
        contribList]
  | none =>
    simpa [entryContrib, pyTruthy, optS_none, specIpcEntry, keepTruthy]
      using joinBranch

theorem mkIpcEntry_get_mg (mg sg fc : Option String) :
    pyGetAttrGet (mkIpcEntry mg sg fc) "main_group" = .ok (some (optS mg)) :=
  rfl

theorem mkIpcEntry_get_sg (mg sg fc : Option String) :
    pyGetAttrGet (mkIpcEntry mg sg fc) "subgroup" = .ok (some (optS sg)) :=
  rfl

theorem mkIpcEntry_get_fc (mg sg fc : Option String) :
    pyGetAttrGet (mkIpcEntry mg sg fc) "fullname" = .ok (some (optS fc)) :=
  rfl

theorem ipcLoop_mk (es : List (Option String × Option String × Option String)) :
    ipcLoop (es.map fun e => mkIpcEntry e.1 e.2.1 e.2.2) =
      .ok ((es.filterMap fun e => specIpcEntry e.1 e.2.1 e.2.2).map
        JValue.str) := by
  induction es with
  | nil => rfl
  | cons e es ih =>
    obtain ⟨mg, sg, fc⟩ := e
    simp only [List.map_cons, ipcLoop, mkIpcEntry_get_mg, mkIpcEntry_get_sg,
      mkIpcEntry_get_fc, exc_ok_bind, optJ, entryContrib_mk, ih,
      List.filterMap_cons]
    cases h : specIpcEntry mg sg fc <;> simp [h, contribList]

theorem mapM_loop_validateStr (l : List String) (acc : List String) :
    List.mapM.loop validateStr (l.map JValue.str) acc =
      .ok (acc.reverse ++ l) := by
  induction l generalizing acc with
  | nil => simp [List.mapM.loop]
  | cons s rest ih => simp [List.mapM.loop, validateStr, ih]

theorem mapM_loop_validateStr_cons (x : String) (xs : List String) :
    List.mapM.loop validateStr (JValue.str x :: xs.map JValue.str) [] =
      .ok (x :: xs) := by
  simpa using mapM_loop_validateStr (x :: xs) []

/-- C8: the `ipc` field is derived by iterating
`common.classification.ipc`: each entry contributes its (non-empty)
`fullname`, else the non-empty `main_group` and `subgroup` joined with a
single space; entries yielding nothing are skipped; the field is null when
the derived list is empty, else the ordered list (first conjunct).  A
non-list `common.classification.ipc` is treated as an empty list, giving
`ipc = null` (second conjunct). -/
theorem ipc_derivation :
    (∀ es : List (Option String × Option String × Option String),
       (_normalize_hit (mkIpcHit es)).map (·.ipc) = .ok (specIpc es)) ∧
    (∀ v : JValue, v.isArr = false →
       (_normalize_hit (mkIpcRawHit v)).map (·.ipc) = .ok none) := by
  constructor
  · intro es
    cases h : es.filterMap (fun e => specIpcEntry e.1 e.2.1 e.2.2) with
    | nil =>
      simp [_normalize_hit, mkIpcHit, _safe_get, objGet, optJ, pyStrStrip,
        pyGetAttrGet, pyFmtDateJ_null, flatFallbackStep, pyTruthy,
        validateOptStr, pyStrip_empty, ipcLoop_mk, specIpc, h]
    | cons x xs =>
      simp [_normalize_hit, mkIpcHit, _safe_get, objGet, optJ, pyStrStrip,
        pyGetAttrGet, pyFmtDateJ_null, flatFallbackStep, pyTruthy,
        validateOptStr, pyStrip_empty, ipcLoop_mk, specIpc, h,
        mapM_loop_validateStr_cons]
  · intro v hv
    cases v with
    | arr xs => simp [JValue.isArr] at hv
    | null => rfl
    | bool b => rfl
    | num n => rfl
    | str s => rfl
    | obj kvs => rfl

/-- Witness for C8's non-list conjunct at a concrete input: a string in
place of the `ipc` list yields `ipc = null`. -/
theorem ipc_derivation_witness :
    (JValue.str "A01B").isArr = false ∧
    (_normalize_hit (mkIpcRawHit (.str "A01B"))).map (·.ipc) = .ok none :=
  ⟨rfl, ipc_derivation.2 (.str "A01B") rfl⟩

end RosPatent
